import Mathlib

/-!
# Session lifecycle of the go-ib-cp client

A shallow embedding of `goibcp.go` (Connect, Tickle, Logout, Reauthenticate,
SessionStatus) and `utils.go` (GetEndpoint, PostEndpoint, AutoTickle).

Modelling conventions.

* The three package level variables `Settings`, `Client` and `User` are the
  fields of `World`; every function that reads or writes them passes them
  explicitly.
* A status request decodes its response straight into the long lived client
  (`SetResult(c)`), so its answer is given flag by flag, as a `StatusAnswer`:
  the error the request returns, and for every flag of the client either the
  value the response writes to it or nothing.  A flag the response does not
  carry keeps its value, and a request can return a decoding error after some
  flags have been written.
* Every other remote call decodes into a target that nothing reads after a
  failed call (a fresh local variable, or `User`).  It is answered by a value
  of `Except TransportError α`: `.error e` is a non-nil error `e`, and `.ok v`
  is a nil error with the target holding `v` after decoding.
* Every function returns, next to its Go results, the list of `Event`s it
  performed, in order: remote calls, sleeps and goroutine starts.  Writes to
  standard output (`logMsg`, `fmt.Printf`) are not recorded; they change neither
  the state nor the control flow.
* The variadic `userSettings ...*Config` is a list of (non-nil) configurations.
-/

namespace Goibcp

/-! ## Data model -/

/-- Log level constant `ERROR`. -/
def ERROR : Int := 0
/-- Log level constant `WARNING`. -/
def WARNING : Int := 1
/-- Log level constant `INFO`. -/
def INFO : Int := 2
/-- Log level constant `DEBUG`. -/
def DEBUG : Int := 3

/-- Config to connect to the CP web gateway (`type Config struct`). -/
structure Config where
  CPURL : String
  LogLevel : Int
  AutoTickle : Bool
deriving DecidableEq, Repr

/-- Initial value of the package variable `Settings`. -/
def Settings : Config := { CPURL := "https://localhost:5000", LogLevel := 2, AutoTickle := true }

/-- An error value produced by the HTTP library (network or decoding failure). -/
structure TransportError where
  msg : String
deriving DecidableEq, Repr

/-- A Go `error`: either one handed back by the HTTP library, or one created in
this package by `errors.New`. -/
inductive Error where
  | transport (e : TransportError)
  | new (msg : String)
deriving DecidableEq, Repr

/-- Modelled from the spec: the declaration of `IBClient` is absent from the
sources.  The Session State flags `connected`, `authenticated`, `competing`;
the code reads `IsConnected` and `IsAuthenticated`. -/
structure IBClient where
  IsAuthenticated : Bool := false
  IsConnected : Bool := false
  IsCompeting : Bool := false
deriving DecidableEq, Repr

/-- Modelled from the spec: the declaration of `IBUser` is absent from the
sources.  The validity response; the code reads only the expiry field
`Expires`, whose Go zero value is 0. -/
structure IBUser where
  Expires : Int := 0
deriving DecidableEq, Repr

/-- Modelled from the spec: the declaration of `IBLogout` is absent from the
sources.  The reply of the logout endpoint; the code never reads it. -/
structure IBLogout where
  body : String := ""
deriving DecidableEq, Repr

/-- Modelled from the spec: part of the absent declaration of `IBTickle`, the
flags read through `treply.Iserver.AuthStatus`. -/
structure TickleAuthStatus where
  Authenticated : Bool := false
  Competing : Bool := false
  Connected : Bool := false
deriving DecidableEq, Repr

/-- Modelled from the spec: part of the absent declaration of `IBTickle`, the
member `Iserver`. -/
structure TickleIserver where
  AuthStatus : TickleAuthStatus := {}
deriving DecidableEq, Repr

/-- Modelled from the spec: the declaration of `IBTickle` is absent from the
sources.  The heartbeat response; the code reads
`Iserver.AuthStatus.Connected` and `Iserver.AuthStatus.Authenticated`. -/
structure IBTickle where
  Iserver : TickleIserver := {}
deriving DecidableEq, Repr

/-- An observable action of the program.  `get base endp` and `post base endp`
are requests to `base + endpoints[endp]`; `sleep n` is `time.Sleep(n * time.Second)`;
`goAutoTickle` is the statement `go AutoTickle(&Client)`. -/
inductive Event where
  | get (base : String) (endp : String)
  | post (base : String) (endp : String)
  | sleep (seconds : Nat)
  | goAutoTickle
deriving DecidableEq, Repr

/-- The answer of the gateway to a status request, as the HTTP library applies
it to the client it decodes into.  `err` is the error the request returns
(`none` is nil).  Each other field is `some b` when the response carries that
flag and it decodes to `b`, which is then written to the client, and `none`
when nothing is written to that flag: the request failed before a body was
read, the body is not decoded, or the flag is absent, null or of the wrong
type.  A decoding error is an answer with `err = some e` in which some flags
may still be written. -/
structure StatusAnswer where
  err : Option TransportError := none
  authenticated : Option Bool := none
  connected : Option Bool := none
  competing : Option Bool := none
deriving DecidableEq, Repr

/-- The client after the answer has been decoded into it: a written flag takes
the written value, every other flag keeps its value. -/
def StatusAnswer.decode (a : StatusAnswer) (c : IBClient) : IBClient :=
  { IsAuthenticated := a.authenticated.getD c.IsAuthenticated,
    IsConnected := a.connected.getD c.IsConnected,
    IsCompeting := a.competing.getD c.IsCompeting }

/-- Whether the answer writes at least one flag of the client. -/
def StatusAnswer.writes (a : StatusAnswer) : Bool :=
  a.authenticated.isSome || a.connected.isSome || a.competing.isSome

/-- The answer without error that carries all three flags of `v`. -/
def StatusAnswer.full (v : IBClient) : StatusAnswer :=
  { err := none, authenticated := some v.IsAuthenticated, connected := some v.IsConnected,
    competing := some v.IsCompeting }

/-- Result of a call that decodes into a result target: the content of the
target afterwards, the returned error (`none` is nil) and the events. -/
structure Call (α : Type) where
  res : α
  err : Option Error
  trace : List Event

/-- The package variables `Settings`, `Client` and `User`. -/
structure World where
  Settings : Config
  Client : IBClient
  User : IBUser
deriving DecidableEq, Repr

/-- The package variables at process start. -/
def initWorld : World := { Settings := Settings, Client := {}, User := {} }

/-! ## utils.go -/

/-- `GetEndpoint(endp, res)`: GET `Settings.CPURL + endpoints[endp]` decoding
into `res`; returns the error of the request.  (The optional query string only
changes the request and is not used by the callers modelled here.) -/
def GetEndpoint {α : Type} (S : Config) (endp : String) (res : α)
    (resp : Except TransportError α) : Call α :=
  match resp with
  | .error e => { res := res, err := some (.transport e), trace := [.get S.CPURL endp] }
  | .ok v => { res := v, err := none, trace := [.get S.CPURL endp] }

/-- `PostEndpoint(endp, res)`: POST `Settings.CPURL + endpoints[endp]` decoding
into `res`; returns the error of the request. -/
def PostEndpoint {α : Type} (S : Config) (endp : String) (res : α)
    (resp : Except TransportError α) : Call α :=
  match resp with
  | .error e => { res := res, err := some (.transport e), trace := [.post S.CPURL endp] }
  | .ok v => { res := v, err := none, trace := [.post S.CPURL endp] }

/-- Outcome of one pass through the body of the `for` loop of `AutoTickle`:
the client `*c` and the loop variable `treply` afterwards, the events, and
`stop = some err` when the pass ends in `break` with `err`. -/
structure TickleIter where
  c : IBClient
  treply : IBTickle
  stop : Option Error
  trace : List Event

/-- One pass through the body of the `for` loop of `AutoTickle(c)`. -/
def AutoTickleIter (S : Config) (c : IBClient) (treply : IBTickle)
    (resp : Except TransportError IBTickle) : TickleIter :=
  let p := PostEndpoint S "sessionTickle" treply resp
  let tr := Event.sleep 60 :: p.trace
  match p.err with
  | some err => { c := c, treply := p.res, stop := some err, trace := tr }
  | none =>
    if p.res.Iserver.AuthStatus.Connected == false
        || p.res.Iserver.AuthStatus.Authenticated == false then
      { c := c, treply := p.res, stop := some (.new "IB Session disconnected"), trace := tr }
    else
      { c := c, treply := p.res, stop := none, trace := tr }

/-- The loop of `AutoTickle`, at pass number `i` with loop variable `treply`
and events `tr` so far.  `S i` are the settings read by pass `i` and `tickle i`
the answer to its request.  The Go loop has no bound; `fuel` bounds the number
of passes of the model, and `none` means the task is still running when the
fuel is spent.  The result is the returned error and all events. -/
def AutoTickleLoop (S : Nat → Config) (tickle : Nat → Except TransportError IBTickle) :
    (fuel : Nat) → (i : Nat) → (c : IBClient) → (treply : IBTickle) → (tr : List Event) →
    Option (Error × List Event)
  | 0, _, _, _, _ => none
  | fuel + 1, i, c, treply, tr =>
    let it := AutoTickleIter (S i) c treply (tickle i)
    match it.stop with
    | some err => some (err, tr ++ it.trace)
    | none => AutoTickleLoop S tickle fuel (i + 1) it.c it.treply (tr ++ it.trace)

/-- `AutoTickle(c)`: `var treply IBTickle` starts at its zero value. -/
def AutoTickle (S : Nat → Config) (tickle : Nat → Except TransportError IBTickle)
    (c : IBClient) (fuel : Nat) : Option (Error × List Event) :=
  AutoTickleLoop S tickle fuel 0 c {} []

/-! ## goibcp.go -/

/-- `c.SessionStatus()`: GET the status endpoint decoding into the receiver
`c`; returns the error of the request.  The result holds the receiver `*c`
after the call, on both return paths. -/
def SessionStatus (S : Config) (c : IBClient) (resp : StatusAnswer) : Call IBClient :=
  let c1 := resp.decode c
  match resp.err with
  | some e => { res := c1, err := some (.transport e), trace := [.get S.CPURL "sessionStatus"] }
  | none => { res := c1, err := none, trace := [.get S.CPURL "sessionStatus"] }

/-- `c.Tickle()`: validity check decoding into a fresh local `reply`.  The
result holds the receiver `*c` after the call. -/
def Tickle (S : Config) (c : IBClient) (resp : Except TransportError IBUser) : Call IBClient :=
  let r := GetEndpoint S "sessionValidateSSO" ({} : IBUser) resp
  match r.err with
  | some err => { res := c, err := some err, trace := r.trace }
  | none =>
    if r.res.Expires == 0 then { res := c, err := some (.new "Session Expired"), trace := r.trace }
    else { res := c, err := none, trace := r.trace }

/-- `c.Logout()`: logout request decoding into a fresh local `reply`.  The
result holds the receiver `*c` after the call. -/
def Logout (S : Config) (c : IBClient) (resp : Except TransportError IBLogout) : Call IBClient :=
  let r := GetEndpoint S "sessionLogout" ({} : IBLogout) resp
  match r.err with
  | some err => { res := c, err := some err, trace := r.trace }
  | none => { res := c, err := none, trace := r.trace }

/-- `c.Reauthenticate()`: re-authentication request decoding into a fresh
`&IBClient{}`.  The result holds the receiver `*c` after the call. -/
def Reauthenticate (S : Config) (c : IBClient) (resp : Except TransportError IBClient) :
    Call IBClient :=
  let r := PostEndpoint S "sessionReauthenticate" ({} : IBClient) resp
  match r.err with
  | some err => { res := c, err := some err, trace := r.trace }
  | none => { res := c, err := none, trace := r.trace }

/-- The settings overwrite at the head of `Connect`. -/
def mergeSettings (S : Config) (userSettings : List Config) : Config :=
  match userSettings with
  | [] => S
  | u :: _ =>
    let S1 := if u.CPURL != "" then { S with CPURL := u.CPURL } else S
    let S2 := if u.LogLevel != 2 then { S1 with LogLevel := u.LogLevel } else S1
    let S3 := if u.AutoTickle == false then { S2 with AutoTickle := u.AutoTickle } else S2
    S3

/-- The answers of the gateway to the requests of one `Connect` call:
to the SSO validation, to the status poll of loop pass `i`, and to the
re-authentication of loop pass `i`. -/
structure Gateway where
  validateSSO : Except TransportError IBUser
  sessionStatus : Nat → StatusAnswer
  reauthenticate : Nat → Except TransportError IBClient

/-- Result of `Connect`: the package variables afterwards (the returned
pointer is `&Client`), the returned error, and the events. -/
structure Connected where
  world : World
  err : Option Error
  trace : List Event
deriving DecidableEq, Repr

/-- The loop `for i := 0; i < 2; i++` of `Connect` and the code after it.
`n` is the number of passes left (`2 - i`). -/
def connectLoop (g : Gateway) : (n : Nat) → (i : Nat) → World → List Event → Connected
  | 0, _, w, tr => { world := w, err := none, trace := tr }
  | n + 1, i, w, tr =>
    let st := SessionStatus w.Settings w.Client (g.sessionStatus i)
    let w1 := { w with Client := st.res }
    let tr1 := tr ++ st.trace
    match st.err with
    | some err => { world := w1, err := some err, trace := tr1 }
    | none =>
      if w1.Client.IsConnected == false then
        { world := w1,
          err := some (.new "Not connected to gateway, please login to CP web gateway again"),
          trace := tr1 }
      else if w1.Client.IsAuthenticated == false then
        let p := PostEndpoint w1.Settings "sessionReauthenticate" ({} : IBClient)
          (g.reauthenticate i)
        match p.err with
        | some err => { world := w1, err := some err, trace := tr1 ++ p.trace }
        | none => connectLoop g n (i + 1) w1 (tr1 ++ p.trace ++ [.sleep 3])
      else
        if w1.Settings.AutoTickle == true then
          { world := w1, err := none, trace := tr1 ++ [.goAutoTickle] }
        else
          { world := w1, err := none, trace := tr1 }

/-- `Connect(userSettings...)`. -/
def Connect (w : World) (userSettings : List Config) (g : Gateway) : Connected :=
  let w0 := { w with Settings := mergeSettings w.Settings userSettings }
  let sso := GetEndpoint w0.Settings "sessionValidateSSO" w0.User g.validateSSO
  let w1 := { w0 with User := sso.res }
  match sso.err with
  | some err => { world := w1, err := some err, trace := sso.trace }
  | none => connectLoop g 2 0 w1 sso.trace

/-! ## The client over time -/

/-- The process: the package variables and the running `AutoTickle`
goroutines, each with the content of its local `treply`. -/
structure System where
  world : World
  tasks : List IBTickle
deriving DecidableEq, Repr

/-- The process at start: no goroutine is running. -/
def initSystem : System := { world := initWorld, tasks := [] }

/-- One action of the process on the package variable `Client`, with the
answers of the gateway: a call by the user, or one pass of the loop of the
running `AutoTickle` goroutine number `j`. -/
inductive Op where
  | connect (userSettings : List Config) (g : Gateway)
  | sessionStatus (resp : StatusAnswer)
  | tickle (resp : Except TransportError IBUser)
  | reauthenticate (resp : Except TransportError IBClient)
  | logout (resp : Except TransportError IBLogout)
  | heartbeat (j : Nat) (resp : Except TransportError IBTickle)

/-- The goroutines started by a list of events: one per `go AutoTickle(&Client)`,
each with `treply` at its zero value. -/
def started (tr : List Event) : List IBTickle :=
  (tr.filter (fun e => e == Event.goAutoTickle)).map (fun _ => ({} : IBTickle))

/-- Effect of one action on the process. -/
def step (s : System) : Op → System
  | .connect userSettings g =>
    let r := Connect s.world userSettings g
    { world := r.world, tasks := s.tasks ++ started r.trace }
  | .sessionStatus resp =>
    { s with world := { s.world with
        Client := (SessionStatus s.world.Settings s.world.Client resp).res } }
  | .tickle resp =>
    { s with world := { s.world with Client := (Tickle s.world.Settings s.world.Client resp).res } }
  | .reauthenticate resp =>
    { s with world := { s.world with
        Client := (Reauthenticate s.world.Settings s.world.Client resp).res } }
  | .logout resp =>
    { s with world := { s.world with Client := (Logout s.world.Settings s.world.Client resp).res } }
  | .heartbeat j resp =>
    match s.tasks.get? j with
    | none => s
    | some treply =>
      let it := AutoTickleIter s.world.Settings s.world.Client treply resp
      match it.stop with
      | some _ =>
        { world := { s.world with Client := it.c }, tasks := s.tasks.eraseIdx j }
      | none =>
        { world := { s.world with Client := it.c }, tasks := s.tasks.set j it.treply }

/-- The process after a sequence of actions. -/
def run (s : System) (ops : List Op) : System := ops.foldl step s

/-- Number of `go AutoTickle(&Client)` statements among the events. -/
def spawns (tr : List Event) : Nat := tr.count Event.goAutoTickle

/-- Number of requests to endpoint `endp` among the events. -/
def requests (endp : String) (tr : List Event) : Nat :=
  (tr.filter (fun e => match e with
    | .get _ n => n == endp
    | .post _ n => n == endp
    | _ => false)).length

/-- Number of `connect` actions in a sequence of actions. -/
def connects : List Op → Nat
  | [] => 0
  | .connect _ _ :: ops => connects ops + 1
  | _ :: ops => connects ops

/-- The events of the first `n` passes of the loop of `AutoTickle`: in each
pass one sleep of 60 seconds, then one request to the heartbeat endpoint. -/
def heartbeatEvents (S : Nat → Config) : Nat → List Event
  | 0 => []
  | n + 1 => heartbeatEvents S n ++ [.sleep 60, .post (S n).CPURL "sessionTickle"]

/-- A Session State that does not hold `authenticated` without `connected`. -/
def Consistent (c : IBClient) : Prop := c.IsAuthenticated = true → c.IsConnected = true

instance (c : IBClient) : Decidable (Consistent c) := by
  unfold Consistent; infer_instance

/-- A status answer that writes authenticated=true only together with
connected=true, and connected=false only together with authenticated=false. -/
def StatusAnswer.keepsConsistent (a : StatusAnswer) : Prop :=
  (a.authenticated = some true → a.connected = some true)
    ∧ (a.connected = some false → a.authenticated = some false)

instance (a : StatusAnswer) : Decidable a.keepsConsistent := by
  unfold StatusAnswer.keepsConsistent; infer_instance

/-- Every status answer carried by the action (to SessionStatus, or to one of
the two status polls of Connect) keeps the flags consistent. -/
def Op.statusConsistent : Op → Prop
  | .connect _ g => ∀ i, i < 2 → (g.sessionStatus i).keepsConsistent
  | .sessionStatus resp => resp.keepsConsistent
  | _ => True

/-! ## Example gateways -/

/-- A gateway whose session is connected and authenticated. -/
def gatewayUp : Gateway :=
  { validateSSO := .ok { Expires := 600 },
    sessionStatus := fun _ => .full { IsConnected := true, IsAuthenticated := true },
    reauthenticate := fun _ => .ok {} }

/-- A gateway whose session is connected and becomes authenticated after the
first status poll. -/
def gatewayLate : Gateway :=
  { validateSSO := .ok { Expires := 600 },
    sessionStatus := fun i =>
      if i = 0 then .full { IsConnected := true, IsAuthenticated := false }
      else .full { IsConnected := true, IsAuthenticated := true },
    reauthenticate := fun _ => .ok {} }

/-- A gateway whose session is connected and never authenticated. -/
def gatewayStuck : Gateway :=
  { validateSSO := .ok { Expires := 600 },
    sessionStatus := fun _ => .full { IsConnected := true, IsAuthenticated := false },
    reauthenticate := fun _ => .ok {} }

/-- A gateway whose session is not connected. -/
def gatewayDown : Gateway :=
  { validateSSO := .ok { Expires := 600 },
    sessionStatus := fun _ => .full { IsConnected := false, IsAuthenticated := false },
    reauthenticate := fun _ => .ok {} }

/-- A gateway whose status answer carries authenticated=true with
connected=false. -/
def gatewayOdd : Gateway :=
  { validateSSO := .ok { Expires := 600 },
    sessionStatus := fun _ => .full { IsConnected := false, IsAuthenticated := true },
    reauthenticate := fun _ => .ok {} }

/-- A gateway whose session is connected at the first status poll and not
connected at the second. -/
def gatewayDrop : Gateway :=
  { validateSSO := .ok { Expires := 600 },
    sessionStatus := fun i =>
      if i = 0 then .full { IsConnected := true, IsAuthenticated := false }
      else .full { IsConnected := false, IsAuthenticated := false },
    reauthenticate := fun _ => .ok {} }

/-- A status answer with a decoding error: authenticated=false is written,
the connected flag is of the wrong type and not written. -/
def answerMistyped : StatusAnswer :=
  { err := some ⟨"json: cannot unmarshal string into Go struct field of type bool"⟩,
    authenticated := some false, connected := none, competing := none }

/-- Heartbeat answers: three with connected and authenticated, then
connected=false. -/
def tickleThree : Nat → Except TransportError IBTickle := fun i =>
  if i < 3 then .ok { Iserver := { AuthStatus := { Connected := true, Authenticated := true } } }
  else .ok { Iserver := { AuthStatus := { Connected := false, Authenticated := true } } }

/-! ## Basic facts -/

theorem SessionStatus_res (S : Config) (c : IBClient) (a : StatusAnswer) :
    (SessionStatus S c a).res = a.decode c := by
  simp only [SessionStatus]
  split <;> rfl

theorem SessionStatus_trace (S : Config) (c : IBClient) (a : StatusAnswer) :
    (SessionStatus S c a).trace = [.get S.CPURL "sessionStatus"] := by
  simp only [SessionStatus]
  split <;> rfl

theorem SessionStatus_err (S : Config) (c : IBClient) (a : StatusAnswer) :
    (SessionStatus S c a).err = a.err.map Error.transport := by
  simp only [SessionStatus]
  split <;> simp [*]

theorem decode_of_not_writes (a : StatusAnswer) (c : IBClient) (h : a.writes = false) :
    a.decode c = c := by
  obtain ⟨e, au, co, cm⟩ := a
  cases au <;> cases co <;> cases cm <;> simp_all [StatusAnswer.writes, StatusAnswer.decode]

theorem decode_full (v c : IBClient) : (StatusAnswer.full v).decode c = v := rfl

theorem decode_consistent (a : StatusAnswer) (c : IBClient) (hP : a.keepsConsistent)
    (hc : Consistent c) : Consistent (a.decode c) := by
  obtain ⟨e, au, co, cm⟩ := a
  obtain ⟨h1, h2⟩ := hP
  simp only at h1 h2
  unfold Consistent at hc ⊢
  simp only [StatusAnswer.decode]
  cases au with
  | none =>
    cases co with
    | none => simpa using hc
    | some b => cases b <;> simp_all
  | some x =>
    cases x with
    | false => simp
    | true => simp_all

theorem keepsConsistent_of_preserves (a : StatusAnswer)
    (h : ∀ c, Consistent c → Consistent (a.decode c)) : a.keepsConsistent := by
  obtain ⟨e, au, co, cm⟩ := a
  constructor
  · intro hau
    simp only at hau
    have h1 := h { IsAuthenticated := false, IsConnected := false } (by decide)
    subst hau
    cases co with
    | none => simp [Consistent, StatusAnswer.decode] at h1
    | some b => cases b <;> simp [Consistent, StatusAnswer.decode] at h1 ⊢
  · intro hco
    simp only at hco
    have h1 := h { IsAuthenticated := true, IsConnected := true } (by decide)
    subst hco
    cases au with
    | none => simp [Consistent, StatusAnswer.decode] at h1
    | some b => cases b <;> simp [Consistent, StatusAnswer.decode] at h1 ⊢

theorem connectLoop_settings (g : Gateway) (n i : Nat) (w : World) (tr : List Event) :
    (connectLoop g n i w tr).world.Settings = w.Settings
      ∧ (connectLoop g n i w tr).world.User = w.User := by
  induction n generalizing i w tr with
  | zero => simp [connectLoop]
  | succ n ih =>
    simp only [connectLoop]
    split
    · simp
    · split
      · simp
      · split
        · split
          · simp
          · have h := ih (i + 1) { w with Client := (SessionStatus w.Settings w.Client
              (g.sessionStatus i)).res }
            simpa using h _
        · split <;> simp

theorem Connect_settings (w : World) (us : List Config) (g : Gateway) :
    (Connect w us g).world.Settings = mergeSettings w.Settings us := by
  unfold Connect
  simp only
  split
  · rfl
  · rw [(connectLoop_settings _ _ _ _ _).1]

theorem mergeSettings_cons (s u : Config) (rest : List Config) :
    mergeSettings s (u :: rest) =
      { CPURL := if u.CPURL = "" then s.CPURL else u.CPURL,
        LogLevel := if u.LogLevel = 2 then s.LogLevel else u.LogLevel,
        AutoTickle := s.AutoTickle && u.AutoTickle } := by
  simp only [mergeSettings]
  by_cases h1 : u.CPURL = "" <;> by_cases h2 : u.LogLevel = 2 <;>
    cases h3 : u.AutoTickle <;> simp [h1, h2]

theorem mergeSettings_keeps_off (s : Config) (us : List Config) :
    (s.AutoTickle = false → (mergeSettings s us).AutoTickle = false)
      ∧ (s.LogLevel ≠ 2 → (mergeSettings s us).LogLevel ≠ 2) := by
  cases us with
  | nil => simp [mergeSettings]
  | cons u rest =>
    rw [mergeSettings_cons]
    constructor
    · intro h; simp [h]
    · intro h
      by_cases h2 : u.LogLevel = 2
      · simpa [h2] using h
      · simp [h2]

theorem step_settings (s : System) (op : Op) :
    (step s op).world.Settings = s.world.Settings
      ∨ ∃ us g, op = .connect us g
          ∧ (step s op).world.Settings = mergeSettings s.world.Settings us := by
  cases op with
  | connect us g => exact Or.inr ⟨us, g, rfl, Connect_settings _ _ _⟩
  | sessionStatus resp => exact Or.inl rfl
  | tickle resp => exact Or.inl rfl
  | reauthenticate resp => exact Or.inl rfl
  | logout resp => exact Or.inl rfl
  | heartbeat j resp =>
    left
    simp only [step]
    split
    · rfl
    · split <;> rfl

theorem run_keeps_off (ops : List Op) (s : System) :
    (s.world.Settings.AutoTickle = false → (run s ops).world.Settings.AutoTickle = false)
      ∧ (s.world.Settings.LogLevel ≠ 2 → (run s ops).world.Settings.LogLevel ≠ 2) := by
  induction ops generalizing s with
  | nil => simp [run]
  | cons op ops ih =>
    have hrun : run s (op :: ops) = run (step s op) ops := rfl
    rw [hrun]
    rcases step_settings s op with h | ⟨us, g, -, h⟩
    · constructor
      · intro h0; exact (ih (step s op)).1 (by rw [h]; exact h0)
      · intro h0; exact (ih (step s op)).2 (by rw [h]; exact h0)
    · constructor
      · intro h0
        exact (ih (step s op)).1 (by rw [h]; exact (mergeSettings_keeps_off _ us).1 h0)
      · intro h0
        exact (ih (step s op)).2 (by rw [h]; exact (mergeSettings_keeps_off _ us).2 h0)

theorem connectLoop_client (g : Gateway) (n i : Nat) (w : World) (tr : List Event) :
    (connectLoop g n i w tr).world.Client = w.Client
      ∨ ∃ j, i ≤ j ∧ j < i + n ∧ (g.sessionStatus j).writes = true := by
  induction n generalizing i w tr with
  | zero => left; rfl
  | succ n ih =>
    by_cases hw : (g.sessionStatus i).writes = true
    · right; exact ⟨i, le_refl _, by omega, hw⟩
    · have hd : (SessionStatus w.Settings w.Client (g.sessionStatus i)).res = w.Client := by
        rw [SessionStatus_res]
        exact decode_of_not_writes _ _ (by simpa using hw)
      simp only [connectLoop, hd]
      split
      · left; rfl
      · split
        · left; rfl
        · split
          · split
            · left; rfl
            · rcases ih (i + 1) { w with Client := w.Client }
                (tr ++ (SessionStatus w.Settings w.Client (g.sessionStatus i)).trace
                  ++ (PostEndpoint w.Settings "sessionReauthenticate" ({} : IBClient)
                        (g.reauthenticate i)).trace ++ [Event.sleep 3]) with h | ⟨j, h1, h2, h3⟩
              · left; exact h
              · right; exact ⟨j, by omega, by omega, h3⟩
          · split <;> (left; rfl)

theorem Connect_client (w : World) (us : List Config) (g : Gateway) :
    (Connect w us g).world.Client = w.Client
      ∨ ∃ j, j < 2 ∧ (g.sessionStatus j).writes = true := by
  unfold Connect
  simp only
  split
  · left; rfl
  · rcases connectLoop_client g 2 0
      { Settings := mergeSettings w.Settings us, Client := w.Client,
        User := (GetEndpoint (mergeSettings w.Settings us) "sessionValidateSSO" w.User
          g.validateSSO).res }
      (GetEndpoint (mergeSettings w.Settings us) "sessionValidateSSO" w.User
          g.validateSSO).trace with h | ⟨j, -, h2, h3⟩
    · left; exact h
    · right; exact ⟨j, by omega, h3⟩

theorem connectLoop_consistent (g : Gateway) (n i : Nat) (w : World) (tr : List Event)
    (hc : Consistent w.Client)
    (hP : ∀ j, i ≤ j → j < i + n → (g.sessionStatus j).keepsConsistent) :
    Consistent (connectLoop g n i w tr).world.Client := by
  induction n generalizing i w tr with
  | zero => exact hc
  | succ n ih =>
    have hd : Consistent (SessionStatus w.Settings w.Client (g.sessionStatus i)).res := by
      rw [SessionStatus_res]
      exact decode_consistent _ _ (hP i (le_refl _) (by omega)) hc
    simp only [connectLoop]
    split
    · exact hd
    · split
      · exact hd
      · split
        · split
          · exact hd
          · exact ih (i + 1) { w with Client := (SessionStatus w.Settings w.Client
              (g.sessionStatus i)).res } _ hd (fun j h1 h2 => hP j (by omega) (by omega))
        · split <;> exact hd

theorem Connect_consistent (w : World) (us : List Config) (g : Gateway)
    (hc : Consistent w.Client) (hP : ∀ j, j < 2 → (g.sessionStatus j).keepsConsistent) :
    Consistent (Connect w us g).world.Client := by
  unfold Connect
  simp only
  split
  · exact hc
  · exact connectLoop_consistent g 2 0 _ _ hc (fun j _ h2 => hP j (by omega))

theorem Tickle_res (S : Config) (c : IBClient) (resp : Except TransportError IBUser) :
    (Tickle S c resp).res = c := by
  unfold Tickle
  simp only
  split
  · rfl
  · split <;> rfl

theorem Logout_res (S : Config) (c : IBClient) (resp : Except TransportError IBLogout) :
    (Logout S c resp).res = c := by
  unfold Logout
  simp only
  split <;> rfl

theorem Reauthenticate_res (S : Config) (c : IBClient) (resp : Except TransportError IBClient) :
    (Reauthenticate S c resp).res = c := by
  unfold Reauthenticate
  simp only
  split <;> rfl

theorem AutoTickleIter_c (S : Config) (c : IBClient) (treply : IBTickle)
    (resp : Except TransportError IBTickle) : (AutoTickleIter S c treply resp).c = c := by
  unfold AutoTickleIter
  simp only
  split
  · rfl
  · split <;> rfl

theorem step_client (s : System) (op : Op) :
    (step s op).world.Client = s.world.Client
      ∨ (∃ a, op = .sessionStatus a ∧ a.writes = true
          ∧ (step s op).world.Client = a.decode s.world.Client)
      ∨ (∃ us g j, op = .connect us g ∧ j < 2 ∧ (g.sessionStatus j).writes = true) := by
  cases op with
  | connect us g =>
    rcases Connect_client s.world us g with h | ⟨j, h1, h2⟩
    · left; exact h
    · right; right; exact ⟨us, g, j, rfl, h1, h2⟩
  | sessionStatus resp =>
    by_cases hw : resp.writes = true
    · right; left; exact ⟨resp, rfl, hw, SessionStatus_res _ _ _⟩
    · left
      show (SessionStatus s.world.Settings s.world.Client resp).res = s.world.Client
      rw [SessionStatus_res]
      exact decode_of_not_writes _ _ (by simpa using hw)
  | tickle resp => left; exact Tickle_res _ _ _
  | reauthenticate resp => left; exact Reauthenticate_res _ _ _
  | logout resp => left; exact Logout_res _ _ _
  | heartbeat j resp =>
    left
    simp only [step]
    split
    · rfl
    · split <;> exact AutoTickleIter_c _ _ _ _

theorem step_consistent (s : System) (op : Op) (hc : Consistent s.world.Client)
    (hop : op.statusConsistent) : Consistent (step s op).world.Client := by
  cases op with
  | connect us g => exact Connect_consistent s.world us g hc hop
  | sessionStatus resp =>
    show Consistent (SessionStatus s.world.Settings s.world.Client resp).res
    rw [SessionStatus_res]
    exact decode_consistent _ _ hop hc
  | tickle resp =>
    show Consistent (Tickle s.world.Settings s.world.Client resp).res
    rw [Tickle_res]; exact hc
  | reauthenticate resp =>
    show Consistent (Reauthenticate s.world.Settings s.world.Client resp).res
    rw [Reauthenticate_res]; exact hc
  | logout resp =>
    show Consistent (Logout s.world.Settings s.world.Client resp).res
    rw [Logout_res]; exact hc
  | heartbeat j resp =>
    simp only [step]
    split
    · exact hc
    · split <;> (rw [AutoTickleIter_c]; exact hc)

theorem requests_append (endp : String) (a b : List Event) :
    requests endp (a ++ b) = requests endp a + requests endp b := by
  simp [requests]

theorem spawns_append (a b : List Event) : spawns (a ++ b) = spawns a + spawns b := by
  simp [spawns]

theorem requests_single (endp : String) (b : String) :
    requests endp [Event.get b endp] = 1 ∧ requests endp [Event.post b endp] = 1
      ∧ requests endp [Event.sleep 3] = 0 ∧ requests endp [Event.goAutoTickle] = 0 := by
  simp [requests]

theorem requests_other :
    (∀ b, requests "sessionStatus" [Event.post b "sessionReauthenticate"] = 0)
      ∧ (∀ b, requests "sessionReauthenticate" [Event.get b "sessionStatus"] = 0)
      ∧ (∀ b, requests "sessionStatus" [Event.get b "sessionValidateSSO"] = 0)
      ∧ (∀ b, requests "sessionReauthenticate" [Event.get b "sessionValidateSSO"] = 0) := by
  simp [requests]

theorem connectLoop_requests (g : Gateway) (n i : Nat) (w : World) (tr : List Event) :
    requests "sessionStatus" (connectLoop g n i w tr).trace ≤ requests "sessionStatus" tr + n
      ∧ requests "sessionReauthenticate" (connectLoop g n i w tr).trace
          ≤ requests "sessionReauthenticate" tr + n := by
  induction n generalizing i w tr with
  | zero => simp [connectLoop]
  | succ n ih =>
    have hs : ∀ r, (SessionStatus w.Settings w.Client r).trace
        = [Event.get w.Settings.CPURL "sessionStatus"] :=
      fun r => SessionStatus_trace _ _ r
    have hp : ∀ r, (PostEndpoint w.Settings "sessionReauthenticate" ({} : IBClient) r).trace
        = [Event.post w.Settings.CPURL "sessionReauthenticate"] := by
      intro r; cases r <;> rfl
    have k1 := fun e b => (requests_single e b).1
    have k2 := fun e b => (requests_single e b).2.1
    have k3 := fun e => (requests_single e "").2.2.1
    have k4 := fun e => (requests_single e "").2.2.2
    have k5 := requests_other.1
    have k6 := requests_other.2.1
    simp only [connectLoop, hs, hp]
    split
    · simp only [requests_append, k1, k6]; omega
    · split
      · simp only [requests_append, k1, k6]; omega
      · split
        · split
          · simp only [requests_append, k1, k2, k5, k6]; omega
          · have h := ih (i + 1) { w with Client := (SessionStatus w.Settings w.Client
              (g.sessionStatus i)).res }
              (tr ++ [Event.get w.Settings.CPURL "sessionStatus"]
                ++ [Event.post w.Settings.CPURL "sessionReauthenticate"] ++ [Event.sleep 3])
            simp only [requests_append, k1, k2, k3, k5, k6] at h
            constructor
            · have := h.1; omega
            · have := h.2; omega
        · split
          · simp only [requests_append, k1, k4, k6]; omega
          · simp only [requests_append, k1, k6]; omega

theorem Connect_requests (w : World) (us : List Config) (g : Gateway) :
    requests "sessionStatus" (Connect w us g).trace ≤ 2
      ∧ requests "sessionReauthenticate" (Connect w us g).trace ≤ 2 := by
  have hg : ∀ r, (GetEndpoint (mergeSettings w.Settings us) "sessionValidateSSO" w.User r).trace
      = [Event.get (mergeSettings w.Settings us).CPURL "sessionValidateSSO"] := by
    intro r; cases r <;> rfl
  unfold Connect
  simp only [hg]
  split
  · simp [requests]
  · have h := connectLoop_requests g 2 0
      { Settings := mergeSettings w.Settings us, Client := w.Client,
        User := (GetEndpoint (mergeSettings w.Settings us) "sessionValidateSSO" w.User
          g.validateSSO).res }
      [Event.get (mergeSettings w.Settings us).CPURL "sessionValidateSSO"]
    simp only [requests_other.2.2.1, requests_other.2.2.2] at h
    constructor
    · have := h.1; omega
    · have := h.2; omega

theorem connectLoop_spawns (g : Gateway) (n i : Nat) (w : World) (tr : List Event) :
    spawns (connectLoop g n i w tr).trace ≤ spawns tr + 1 := by
  induction n generalizing i w tr with
  | zero => simp [connectLoop]
  | succ n ih =>
    have hs : ∀ r, (SessionStatus w.Settings w.Client r).trace
        = [Event.get w.Settings.CPURL "sessionStatus"] :=
      fun r => SessionStatus_trace _ _ r
    have hp : ∀ r, (PostEndpoint w.Settings "sessionReauthenticate" ({} : IBClient) r).trace
        = [Event.post w.Settings.CPURL "sessionReauthenticate"] := by
      intro r; cases r <;> rfl
    have k1 : ∀ b e, spawns [Event.get b e] = 0 := by intro b e; simp [spawns]
    have k2 : ∀ b e, spawns [Event.post b e] = 0 := by intro b e; simp [spawns]
    have k3 : spawns [Event.sleep 3] = 0 := by simp [spawns]
    have k4 : spawns [Event.goAutoTickle] = 1 := by simp [spawns]
    simp only [connectLoop, hs, hp]
    split
    · simp only [spawns_append, k1]; omega
    · split
      · simp only [spawns_append, k1]; omega
      · split
        · split
          · simp only [spawns_append, k1, k2]; omega
          · have h := ih (i + 1) { w with Client := (SessionStatus w.Settings w.Client
              (g.sessionStatus i)).res }
              (tr ++ [Event.get w.Settings.CPURL "sessionStatus"]
                ++ [Event.post w.Settings.CPURL "sessionReauthenticate"] ++ [Event.sleep 3])
            simp only [spawns_append, k1, k2, k3] at h
            omega
        · split
          · simp only [spawns_append, k1, k4]; omega
          · simp only [spawns_append, k1]; omega

theorem Connect_spawns (w : World) (us : List Config) (g : Gateway) :
    spawns (Connect w us g).trace ≤ 1 := by
  have hg : ∀ r, (GetEndpoint (mergeSettings w.Settings us) "sessionValidateSSO" w.User r).trace
      = [Event.get (mergeSettings w.Settings us).CPURL "sessionValidateSSO"] := by
    intro r; cases r <;> rfl
  have k1 : ∀ b e, spawns [Event.get b e] = 0 := by intro b e; simp [spawns]
  unfold Connect
  simp only [hg]
  split
  · simp [spawns]
  · have h := connectLoop_spawns g 2 0
      { Settings := mergeSettings w.Settings us, Client := w.Client,
        User := (GetEndpoint (mergeSettings w.Settings us) "sessionValidateSSO" w.User
          g.validateSSO).res }
      [Event.get (mergeSettings w.Settings us).CPURL "sessionValidateSSO"]
    simp only [k1] at h
    omega

theorem started_length (tr : List Event) : (started tr).length = spawns tr := by
  simp [started, spawns, List.count, List.countP_eq_length_filter]

theorem step_tasks (s : System) (op : Op) :
    (∀ us g, op = .connect us g →
        (step s op).tasks.length = s.tasks.length + spawns (Connect s.world us g).trace)
      ∧ ((∀ us g, op ≠ .connect us g) → (step s op).tasks.length ≤ s.tasks.length) := by
  cases op with
  | connect us g =>
    refine ⟨?_, fun h => absurd rfl (h us g)⟩
    intro us1 g1 h
    cases h
    simp [step, started_length]
  | sessionStatus resp => exact ⟨fun _ _ h => Op.noConfusion h, fun _ => le_refl _⟩
  | tickle resp => exact ⟨fun _ _ h => Op.noConfusion h, fun _ => le_refl _⟩
  | reauthenticate resp => exact ⟨fun _ _ h => Op.noConfusion h, fun _ => le_refl _⟩
  | logout resp => exact ⟨fun _ _ h => Op.noConfusion h, fun _ => le_refl _⟩
  | heartbeat j resp =>
    refine ⟨fun _ _ h => Op.noConfusion h, fun _ => ?_⟩
    simp only [step]
    split
    · exact le_refl _
    · split
      · simp only [List.length_eraseIdx]; split <;> omega
      · simp

theorem run_tasks (ops : List Op) (s : System) :
    (run s ops).tasks.length ≤ s.tasks.length + connects ops := by
  induction ops generalizing s with
  | nil => simp [run, connects]
  | cons op ops ih =>
    have hrun : run s (op :: ops) = run (step s op) ops := rfl
    rw [hrun]
    have h := ih (step s op)
    cases op with
    | connect us g =>
      have h1 := (step_tasks s (.connect us g)).1 us g rfl
      have h2 := Connect_spawns s.world us g
      simp only [connects]
      omega
    | sessionStatus resp =>
      have h1 := (step_tasks s (.sessionStatus resp)).2 (fun _ _ h => Op.noConfusion h)
      simp only [connects]; omega
    | tickle resp =>
      have h1 := (step_tasks s (.tickle resp)).2 (fun _ _ h => Op.noConfusion h)
      simp only [connects]; omega
    | reauthenticate resp =>
      have h1 := (step_tasks s (.reauthenticate resp)).2 (fun _ _ h => Op.noConfusion h)
      simp only [connects]; omega
    | logout resp =>
      have h1 := (step_tasks s (.logout resp)).2 (fun _ _ h => Op.noConfusion h)
      simp only [connects]; omega
    | heartbeat j resp =>
      have h1 := (step_tasks s (.heartbeat j resp)).2 (fun _ _ h => Op.noConfusion h)
      simp only [connects]; omega

theorem run_consistent (ops : List Op) (s : System) (h0 : Consistent s.world.Client)
    (hops : ∀ op ∈ ops, op.statusConsistent) : Consistent (run s ops).world.Client := by
  induction ops generalizing s with
  | nil => exact h0
  | cons op ops ih =>
    have hrun : run s (op :: ops) = run (step s op) ops := rfl
    rw [hrun]
    apply ih
    · exact step_consistent s op h0 (hops op (List.mem_cons_self _ _))
    · intro o ho
      exact hops o (List.mem_cons_of_mem _ ho)

theorem heartbeatEvents_counts (S : Nat → Config) (n : Nat) :
    requests "sessionTickle" (heartbeatEvents S n) = n
      ∧ (heartbeatEvents S n).count (Event.sleep 60) = n
      ∧ (heartbeatEvents S n).length = 2 * n := by
  induction n with
  | zero => simp [heartbeatEvents, requests]
  | succ n ih =>
    obtain ⟨h1, h2, h3⟩ := ih
    refine ⟨?_, ?_, ?_⟩
    · rw [heartbeatEvents, requests_append, h1]; simp [requests]
    · rw [heartbeatEvents, List.count_append, h2]; simp
    · rw [heartbeatEvents, List.length_append, h3]; simp; omega

theorem AutoTickleIter_trace (S : Config) (c : IBClient) (treply : IBTickle)
    (resp : Except TransportError IBTickle) :
    (AutoTickleIter S c treply resp).trace = [.sleep 60, .post S.CPURL "sessionTickle"] := by
  cases resp with
  | error e => simp [AutoTickleIter, PostEndpoint]
  | ok t =>
    simp only [AutoTickleIter, PostEndpoint]
    split <;> rfl

theorem AutoTickleIter_stop (S : Config) (c : IBClient) (treply : IBTickle) :
    (∀ e, (AutoTickleIter S c treply (.error e)).stop = some (.transport e))
      ∧ (∀ t, (t.Iserver.AuthStatus.Connected = false
              ∨ t.Iserver.AuthStatus.Authenticated = false) →
          (AutoTickleIter S c treply (.ok t)).stop = some (.new "IB Session disconnected"))
      ∧ (∀ t, t.Iserver.AuthStatus.Connected = true →
          t.Iserver.AuthStatus.Authenticated = true →
          (AutoTickleIter S c treply (.ok t)).stop = none) := by
  refine ⟨fun e => rfl, ?_, ?_⟩
  · intro t h
    rcases h with h | h <;> simp [AutoTickleIter, PostEndpoint, h]
  · intro t h1 h2
    simp [AutoTickleIter, PostEndpoint, h1, h2]

theorem AutoTickleLoop_stops (S : Nat → Config) (tickle : Nat → Except TransportError IBTickle)
    (k : Nat) (err : Error)
    (hgood : ∀ i, i < k → ∃ t, tickle i = .ok t ∧ t.Iserver.AuthStatus.Connected = true
      ∧ t.Iserver.AuthStatus.Authenticated = true)
    (hstop : ∀ c treply, (AutoTickleIter (S k) c treply (tickle k)).stop = some err) :
    ∀ (d i fuel : Nat) (c : IBClient) (treply : IBTickle), i + d = k → d + 1 ≤ fuel →
      AutoTickleLoop S tickle fuel i c treply (heartbeatEvents S i)
        = some (err, heartbeatEvents S (k + 1)) := by
  intro d
  induction d with
  | zero =>
    intro i fuel c treply hi hf
    obtain ⟨f, rfl⟩ : ∃ f, fuel = f + 1 := ⟨fuel - 1, by omega⟩
    have hik : i = k := by omega
    subst hik
    simp [AutoTickleLoop, hstop, AutoTickleIter_trace, heartbeatEvents]
  | succ d ih =>
    intro i fuel c treply hi hf
    obtain ⟨f, rfl⟩ : ∃ f, fuel = f + 1 := ⟨fuel - 1, by omega⟩
    obtain ⟨t, ht, h1, h2⟩ := hgood i (by omega)
    have hnone := (AutoTickleIter_stop (S i) c treply).2.2 t h1 h2
    have hnext := ih (i + 1) f (AutoTickleIter (S i) c treply (.ok t)).c
      (AutoTickleIter (S i) c treply (.ok t)).treply (by omega) (by omega)
    simp only [AutoTickleLoop, ht, hnone, AutoTickleIter_trace]
    simpa [heartbeatEvents] using hnext

theorem AutoTickleLoop_running (S : Nat → Config)
    (tickle : Nat → Except TransportError IBTickle) :
    ∀ (fuel i : Nat) (c : IBClient) (treply : IBTickle) (tr : List Event),
      (∀ j, i ≤ j → j < i + fuel → ∃ t, tickle j = .ok t
        ∧ t.Iserver.AuthStatus.Connected = true ∧ t.Iserver.AuthStatus.Authenticated = true) →
      AutoTickleLoop S tickle fuel i c treply tr = none := by
  intro fuel
  induction fuel with
  | zero => intro i c treply tr _; rfl
  | succ f ih =>
    intro i c treply tr h
    obtain ⟨t, ht, h1, h2⟩ := h i (le_refl _) (by omega)
    have hnone := (AutoTickleIter_stop (S i) c treply).2.2 t h1 h2
    simp only [AutoTickleLoop, ht, hnone]
    apply ih
    intro j hj1 hj2
    exact h j (by omega) (by omega)

/-! ## Claims -/

/-- C10: the settings in effect after the merge at the head of Connect.  With a
configuration `u`: CPURL is `u.CPURL` unless that is empty, LogLevel is
`u.LogLevel` unless that is 2, AutoTickle is the conjunction of the prior and
the supplied flag; with no configuration the settings are unchanged; these are
the settings Connect leaves behind on every outcome.  A configuration with
only a base URL yields LogLevel ERROR and auto-heartbeat off, and once
auto-heartbeat is off, or the log level differs from 2, no later sequence of
actions restores auto-heartbeat on or LogLevel 2. -/
theorem C10_settings_merge (s u : Config) (rest : List Config) (w : World) (us : List Config)
    (g : Gateway) (url : String) (sys : System) (ops : List Op) :
    (mergeSettings s (u :: rest)).CPURL = (if u.CPURL ≠ "" then u.CPURL else s.CPURL)
      ∧ (mergeSettings s (u :: rest)).LogLevel
          = (if u.LogLevel ≠ 2 then u.LogLevel else s.LogLevel)
      ∧ (mergeSettings s (u :: rest)).AutoTickle = (s.AutoTickle && u.AutoTickle)
      ∧ mergeSettings s [] = s
      ∧ (Connect w us g).world.Settings = mergeSettings w.Settings us
      ∧ (mergeSettings s [{ CPURL := url, LogLevel := 0, AutoTickle := false }]).LogLevel = ERROR
      ∧ (mergeSettings s [{ CPURL := url, LogLevel := 0, AutoTickle := false }]).AutoTickle
          = false
      ∧ (sys.world.Settings.AutoTickle = false →
          (run sys ops).world.Settings.AutoTickle = false)
      ∧ (sys.world.Settings.LogLevel ≠ 2 → (run sys ops).world.Settings.LogLevel ≠ 2) := by
  refine ⟨?_, ?_, ?_, rfl, Connect_settings w us g, ?_, ?_, (run_keeps_off ops sys).1,
    (run_keeps_off ops sys).2⟩
  · rw [mergeSettings_cons]; by_cases h : u.CPURL = "" <;> simp [h]
  · rw [mergeSettings_cons]; by_cases h : u.LogLevel = 2 <;> simp [h]
  · rw [mergeSettings_cons]
  · rw [mergeSettings_cons]; simp [ERROR]
  · rw [mergeSettings_cons]; simp

/-- C6: when the request of Tickle succeeds, Tickle returns the error "Session
Expired" exactly when the decoded expiry field is zero and returns nil
otherwise; when the request fails, Tickle returns that transport error, which
is not the session-expired error. -/
theorem C6_tickle_expired (S : Config) (c : IBClient) :
    (∀ u : IBUser,
        ((Tickle S c (.ok u)).err = some (.new "Session Expired") ↔ u.Expires = 0)
          ∧ (u.Expires ≠ 0 → (Tickle S c (.ok u)).err = none))
      ∧ (Tickle S c (.ok {})).err = some (.new "Session Expired")
      ∧ (∀ e : TransportError,
          (Tickle S c (.error e)).err = some (.transport e)
            ∧ (Tickle S c (.error e)).err ≠ some (.new "Session Expired")) := by
  refine ⟨?_, ?_, ?_⟩
  · intro u
    by_cases h : u.Expires = 0
    · simp [Tickle, GetEndpoint, h]
    · simp [Tickle, GetEndpoint, h]
  · simp [Tickle, GetEndpoint]
  · intro e
    simp [Tickle, GetEndpoint]

/-- C9 (as stated, refuted): a SessionStatus call that returns an error can
change the Session State.  With the client holding authenticated=true,
connected=true, a response whose authenticated=false decodes and whose
connected flag is of the wrong type makes the call return the decoding error
with the client holding authenticated=false. -/
theorem C9_failed_status_changes_state :
    (SessionStatus Settings { IsAuthenticated := true, IsConnected := true } answerMistyped).err
        ≠ none
      ∧ (SessionStatus Settings { IsAuthenticated := true, IsConnected := true }
            answerMistyped).res = { IsAuthenticated := false, IsConnected := true }
      ∧ (SessionStatus Settings { IsAuthenticated := true, IsConnected := true }
            answerMistyped).res ≠ { IsAuthenticated := true, IsConnected := true } := by
  decide

/-- C9 (amended): the Session State changes only through a status call, which
decodes the response straight into the client.  After SessionStatus, with or
without an error, every flag holds the value the response wrote to it, or its
previous value when the response wrote nothing to it; a call whose response
writes no flag (in particular one whose request fails before a body is read)
leaves the client as it was.  Tickle (also when it reports session expiry),
Reauthenticate, Logout and every pass of the AutoTickle loop (also one that
observes a disconnected or unauthenticated response) leave the client as it
was for every answer.  Every action of the process that changes the client is
a SessionStatus call whose response writes a flag, or a Connect call one of
whose two status polls gets a response that writes a flag. -/
theorem C9_state_frame (S : Config) (c : IBClient) :
    (∀ a : StatusAnswer,
        (SessionStatus S c a).err = a.err.map Error.transport
          ∧ (SessionStatus S c a).res.IsAuthenticated = a.authenticated.getD c.IsAuthenticated
          ∧ (SessionStatus S c a).res.IsConnected = a.connected.getD c.IsConnected
          ∧ (SessionStatus S c a).res.IsCompeting = a.competing.getD c.IsCompeting)
      ∧ (∀ a : StatusAnswer, a.writes = false → (SessionStatus S c a).res = c)
      ∧ (∀ e : TransportError,
          (SessionStatus S c { err := some e }).err = some (.transport e)
            ∧ (SessionStatus S c { err := some e }).res = c)
      ∧ (∀ resp, (Tickle S c resp).res = c)
      ∧ ((Tickle S c (.ok { Expires := 0 })).err = some (.new "Session Expired")
          ∧ (Tickle S c (.ok { Expires := 0 })).res = c)
      ∧ (∀ resp, (Reauthenticate S c resp).res = c)
      ∧ (∀ resp, (Logout S c resp).res = c)
      ∧ (∀ treply resp, (AutoTickleIter S c treply resp).c = c)
      ∧ (∀ (s : System) (op : Op), (step s op).world.Client ≠ s.world.Client →
          (∃ a, op = .sessionStatus a ∧ a.writes = true
              ∧ (step s op).world.Client = a.decode s.world.Client)
            ∨ (∃ us g j, op = .connect us g ∧ j < 2 ∧ (g.sessionStatus j).writes = true)) := by
  refine ⟨?_, ?_, ?_, Tickle_res S c, ⟨?_, Tickle_res S c _⟩,
    Reauthenticate_res S c, Logout_res S c, AutoTickleIter_c S c, ?_⟩
  · intro a
    refine ⟨SessionStatus_err S c a, ?_, ?_, ?_⟩ <;> rw [SessionStatus_res] <;> rfl
  · intro a h
    rw [SessionStatus_res]
    exact decode_of_not_writes a c h
  · intro e
    refine ⟨rfl, ?_⟩
    rw [SessionStatus_res]
    exact decode_of_not_writes _ c rfl
  · simp [Tickle, GetEndpoint]
  · intro s op h
    rcases step_client s op with h1 | h1
    · exact absurd h1 h
    · exact h1

/-- C1: when SSO validation succeeds and a status poll (the first, or the
second after a successful re-authentication) returns no error and leaves the
client with connected=false, Connect returns the error "Not connected to
gateway, please login to CP web gateway again"; the events of the call end
with that status poll (no re-authentication and no poll after it), no
AutoTickle goroutine is started, and the client is as that poll left it.  This
holds for all prior settings and all supplied configurations.  Here `c0` and
`c1` are the client after the first and after the second poll. -/
theorem C1_not_connected (w : World) (us : List Config) (g : Gateway) (u : IBUser)
    (c0 c1 r0 : IBClient) (b : String)
    (hb : b = (mergeSettings w.Settings us).CPURL)
    (hsso : g.validateSSO = .ok u)
    (he0 : (g.sessionStatus 0).err = none) (h0 : c0 = (g.sessionStatus 0).decode w.Client)
    (h : c0.IsConnected = false
      ∨ (c0.IsConnected = true ∧ c0.IsAuthenticated = false ∧ g.reauthenticate 0 = .ok r0
          ∧ (g.sessionStatus 1).err = none ∧ c1 = (g.sessionStatus 1).decode c0
          ∧ c1.IsConnected = false)) :
    (Connect w us g).err
        = some (.new "Not connected to gateway, please login to CP web gateway again")
      ∧ (Connect w us g).trace
          = (if c0.IsConnected = false then
              [.get b "sessionValidateSSO", .get b "sessionStatus"]
            else
              [.get b "sessionValidateSSO", .get b "sessionStatus",
                .post b "sessionReauthenticate", .sleep 3, .get b "sessionStatus"])
      ∧ (Connect w us g).trace.getLast? = some (.get b "sessionStatus")
      ∧ spawns (Connect w us g).trace = 0
      ∧ (Connect w us g).world.Client = (if c0.IsConnected = false then c0 else c1) := by
  subst hb
  rcases h with h | ⟨hc, ha, hr, he1, h1, hc1⟩
  · simp [Connect, connectLoop, GetEndpoint, SessionStatus, hsso, he0, ← h0, h, spawns]
  · simp [Connect, connectLoop, GetEndpoint, SessionStatus, PostEndpoint, hsso, he0, ← h0, hc,
      ha, hr, he1, ← h1, hc1, spawns]

/-- C3: when SSO validation, both status polls and both re-authentication
calls succeed and both polls leave the client with connected=true,
authenticated=false, Connect returns a nil error, the client is as the second
poll left it, and no AutoTickle goroutine is started; the events are the SSO
validation followed twice by poll, re-authentication and 3 second sleep.  Here
`c0` and `c1` are the client after the first and after the second poll. -/
theorem C3_retry_exhausted (w : World) (us : List Config) (g : Gateway) (u : IBUser)
    (c0 c1 r0 r1 : IBClient) (b : String)
    (hb : b = (mergeSettings w.Settings us).CPURL)
    (hsso : g.validateSSO = .ok u)
    (he0 : (g.sessionStatus 0).err = none) (h0 : c0 = (g.sessionStatus 0).decode w.Client)
    (he1 : (g.sessionStatus 1).err = none) (h1 : c1 = (g.sessionStatus 1).decode c0)
    (hr0 : g.reauthenticate 0 = .ok r0) (hr1 : g.reauthenticate 1 = .ok r1)
    (hc0 : c0.IsConnected = true) (ha0 : c0.IsAuthenticated = false)
    (hc1 : c1.IsConnected = true) (ha1 : c1.IsAuthenticated = false) :
    (Connect w us g).err = none
      ∧ (Connect w us g).world.Client = c1
      ∧ spawns (Connect w us g).trace = 0
      ∧ (Connect w us g).trace
          = [.get b "sessionValidateSSO",
              .get b "sessionStatus", .post b "sessionReauthenticate", .sleep 3,
              .get b "sessionStatus", .post b "sessionReauthenticate", .sleep 3] := by
  subst hb
  simp [Connect, connectLoop, GetEndpoint, SessionStatus, PostEndpoint, hsso, he0, ← h0, he1,
    ← h1, hr0, hr1, hc0, ha0, hc1, ha1, spawns]

/-- C4: when Connect reaches a status poll that returns no error and leaves
the client with connected=true and authenticated=true (the first poll, or the
poll after a successful re-authentication), it returns a nil error; it starts
exactly one AutoTickle goroutine when the merged AutoTickle setting is on and
none when it is off, the start being the last event; and the call itself holds
no heartbeat request and no 60 second sleep.  Here `c0` and `c1` are the
client after the first and after the second poll. -/
theorem C4_heartbeat_started (w : World) (us : List Config) (g : Gateway) (u : IBUser)
    (c0 c1 r0 : IBClient) (b : String)
    (hb : b = (mergeSettings w.Settings us).CPURL)
    (hsso : g.validateSSO = .ok u)
    (he0 : (g.sessionStatus 0).err = none) (h0 : c0 = (g.sessionStatus 0).decode w.Client)
    (h : (c0.IsConnected = true ∧ c0.IsAuthenticated = true)
      ∨ (c0.IsConnected = true ∧ c0.IsAuthenticated = false ∧ g.reauthenticate 0 = .ok r0
          ∧ (g.sessionStatus 1).err = none ∧ c1 = (g.sessionStatus 1).decode c0
          ∧ c1.IsConnected = true ∧ c1.IsAuthenticated = true)) :
    (Connect w us g).err = none
      ∧ (Connect w us g).trace
          = (if c0.IsAuthenticated = true then
              [.get b "sessionValidateSSO", .get b "sessionStatus"]
            else
              [.get b "sessionValidateSSO", .get b "sessionStatus",
                .post b "sessionReauthenticate", .sleep 3, .get b "sessionStatus"])
            ++ (if (mergeSettings w.Settings us).AutoTickle = true then [.goAutoTickle] else [])
      ∧ spawns (Connect w us g).trace
          = (if (mergeSettings w.Settings us).AutoTickle = true then 1 else 0)
      ∧ (spawns (Connect w us g).trace = 1 ↔ (mergeSettings w.Settings us).AutoTickle = true)
      ∧ requests "sessionTickle" (Connect w us g).trace = 0
      ∧ Event.sleep 60 ∉ (Connect w us g).trace := by
  subst hb
  rcases h with ⟨hc, ha⟩ | ⟨hc, ha, hr, he1, h1, hc1, ha1⟩
  · cases hat : (mergeSettings w.Settings us).AutoTickle <;>
      simp [Connect, connectLoop, GetEndpoint, SessionStatus, hsso, he0, ← h0, hc, ha, hat,
        spawns, requests]
  · cases hat : (mergeSettings w.Settings us).AutoTickle <;>
      simp [Connect, connectLoop, GetEndpoint, SessionStatus, PostEndpoint, hsso, he0, ← h0, hc,
        ha, hr, he1, ← h1, hc1, ha1, hat, spawns, requests]

/-- C2: when SSO validation succeeds and the first status poll returns no
error and leaves the client with connected=true, authenticated=false, Connect
issues one re-authentication call; if that call fails Connect returns its
error and polls no more; if it succeeds, exactly that one call and one 3 second
sleep stand between the first and the second status poll, and nothing after
the second poll is a status poll.  In every run Connect makes at most two
status polls and at most two re-authentication calls.  When the second poll
returns no error and leaves connected=true, authenticated=true, Connect
returns a nil error after exactly one re-authentication call and exactly one 3
second sleep.  Here `c0` and `c1` are the client after the first and after the
second poll. -/
theorem C2_single_reauth (w : World) (us : List Config) (g : Gateway) (u : IBUser)
    (c0 : IBClient) (b : String)
    (hb : b = (mergeSettings w.Settings us).CPURL)
    (hsso : g.validateSSO = .ok u)
    (he0 : (g.sessionStatus 0).err = none) (h0 : c0 = (g.sessionStatus 0).decode w.Client)
    (hc : c0.IsConnected = true) (ha : c0.IsAuthenticated = false) :
    (∀ e, g.reauthenticate 0 = .error e →
        (Connect w us g).err = some (.transport e)
          ∧ (Connect w us g).trace
              = [.get b "sessionValidateSSO", .get b "sessionStatus",
                  .post b "sessionReauthenticate"])
      ∧ (∀ r0, g.reauthenticate 0 = .ok r0 →
          ∃ rest, (Connect w us g).trace
              = [.get b "sessionValidateSSO", .get b "sessionStatus",
                  .post b "sessionReauthenticate", .sleep 3, .get b "sessionStatus"] ++ rest
            ∧ requests "sessionStatus" rest = 0)
      ∧ (∀ (w1 : World) (us1 : List Config) (g1 : Gateway),
          requests "sessionStatus" (Connect w1 us1 g1).trace ≤ 2
            ∧ requests "sessionReauthenticate" (Connect w1 us1 g1).trace ≤ 2)
      ∧ (∀ r0 c1, g.reauthenticate 0 = .ok r0 → (g.sessionStatus 1).err = none →
          c1 = (g.sessionStatus 1).decode c0 →
          c1.IsConnected = true → c1.IsAuthenticated = true →
          (Connect w us g).err = none
            ∧ requests "sessionReauthenticate" (Connect w us g).trace = 1
            ∧ (Connect w us g).trace.count (.sleep 3) = 1
            ∧ requests "sessionStatus" (Connect w us g).trace = 2) := by
  subst hb
  refine ⟨?_, ?_, Connect_requests, ?_⟩
  · intro e he
    simp [Connect, connectLoop, GetEndpoint, SessionStatus, PostEndpoint, hsso, he0, ← h0, hc,
      ha, he]
  · intro r0 hr0
    cases he1 : (g.sessionStatus 1).err with
    | some e =>
      refine ⟨[], ?_, by simp [requests]⟩
      simp [Connect, connectLoop, GetEndpoint, SessionStatus, PostEndpoint, hsso, he0, ← h0, hc,
        ha, hr0, he1]
    | none =>
      cases hc1 : ((g.sessionStatus 1).decode c0).IsConnected with
      | false =>
        refine ⟨[], ?_, by simp [requests]⟩
        simp [Connect, connectLoop, GetEndpoint, SessionStatus, PostEndpoint, hsso, he0, ← h0,
          hc, ha, hr0, he1, hc1]
      | true =>
        cases ha1 : ((g.sessionStatus 1).decode c0).IsAuthenticated with
        | true =>
          cases hat : (mergeSettings w.Settings us).AutoTickle with
          | true =>
            refine ⟨[.goAutoTickle], ?_, by simp [requests]⟩
            simp [Connect, connectLoop, GetEndpoint, SessionStatus, PostEndpoint, hsso, he0,
              ← h0, hc, ha, hr0, he1, hc1, ha1, hat]
          | false =>
            refine ⟨[], ?_, by simp [requests]⟩
            simp [Connect, connectLoop, GetEndpoint, SessionStatus, PostEndpoint, hsso, he0,
              ← h0, hc, ha, hr0, he1, hc1, ha1, hat]
        | false =>
          cases hr1 : g.reauthenticate 1 with
          | error e =>
            refine ⟨[.post (mergeSettings w.Settings us).CPURL "sessionReauthenticate"], ?_,
              by simp [requests]⟩
            simp [Connect, connectLoop, GetEndpoint, SessionStatus, PostEndpoint, hsso, he0,
              ← h0, hc, ha, hr0, he1, hc1, ha1, hr1]
          | ok r1 =>
            refine ⟨[.post (mergeSettings w.Settings us).CPURL "sessionReauthenticate",
              .sleep 3], ?_, by simp [requests]⟩
            simp [Connect, connectLoop, GetEndpoint, SessionStatus, PostEndpoint, hsso, he0,
              ← h0, hc, ha, hr0, he1, hc1, ha1, hr1]
  · intro r0 c1 hr0 he1 h1 hc1 ha1
    cases hat : (mergeSettings w.Settings us).AutoTickle <;>
      simp [Connect, connectLoop, GetEndpoint, SessionStatus, PostEndpoint, hsso, he0, ← h0, hc,
        ha, hr0, he1, ← h1, hc1, ha1, hat, requests]

/-- C5: when the first k heartbeat answers are successful with connected=true
and authenticated=true and answer k+1 is a transport error or a response with
connected=false or authenticated=false, AutoTickle (given fuel for at least
k+1 passes) returns after exactly k+1 passes, each one 60 second sleep followed
by one heartbeat request, and these are all its events; it returns the
transport error in the first case and the error "IB Session disconnected" in
the second.  With fuel for at most k passes it is still running. -/
theorem C5_heartbeat_stops (S : Nat → Config) (tickle : Nat → Except TransportError IBTickle)
    (c : IBClient) (k : Nat)
    (hgood : ∀ i, i < k → ∃ t, tickle i = .ok t ∧ t.Iserver.AuthStatus.Connected = true
      ∧ t.Iserver.AuthStatus.Authenticated = true)
    (hbad : (∃ e, tickle k = .error e)
      ∨ ∃ t, tickle k = .ok t ∧ (t.Iserver.AuthStatus.Connected = false
          ∨ t.Iserver.AuthStatus.Authenticated = false)) :
    (∀ fuel, k + 1 ≤ fuel →
        (∀ e, tickle k = .error e →
          AutoTickle S tickle c fuel = some (.transport e, heartbeatEvents S (k + 1)))
        ∧ (∀ t, tickle k = .ok t →
          AutoTickle S tickle c fuel
            = some (.new "IB Session disconnected", heartbeatEvents S (k + 1))))
      ∧ (∀ fuel, fuel ≤ k → AutoTickle S tickle c fuel = none)
      ∧ requests "sessionTickle" (heartbeatEvents S (k + 1)) = k + 1
      ∧ (heartbeatEvents S (k + 1)).count (.sleep 60) = k + 1
      ∧ (heartbeatEvents S (k + 1)).length = 2 * (k + 1) := by
  refine ⟨?_, ?_, heartbeatEvents_counts S (k + 1)⟩
  · intro fuel hf
    constructor
    · intro e he
      have hstop : ∀ c treply, (AutoTickleIter (S k) c treply (tickle k)).stop
          = some (.transport e) := by
        intro c treply; rw [he]; rfl
      exact AutoTickleLoop_stops S tickle k _ hgood hstop k 0 fuel c {} (by omega) hf
    · intro t ht
      rcases hbad with ⟨e, he⟩ | ⟨t1, ht1, hflag⟩
      · rw [he] at ht; cases ht
      · have hstop : ∀ c treply, (AutoTickleIter (S k) c treply (tickle k)).stop
            = some (.new "IB Session disconnected") := by
          intro c treply; rw [ht1]; exact (AutoTickleIter_stop (S k) c treply).2.1 t1 hflag
        exact AutoTickleLoop_stops S tickle k _ hgood hstop k 0 fuel c {} (by omega) hf
  · intro fuel hf
    apply AutoTickleLoop_running
    intro j _ hj
    exact hgood j (by omega)

/-- C7 (as stated, refuted): two successful Connect calls with auto-heartbeat
enabled, the second made while the goroutine of the first is still running,
leave two AutoTickle goroutines running. -/
theorem C7_two_heartbeats :
    ¬ (run initSystem [.connect [] gatewayUp, .connect [] gatewayUp]).tasks.length ≤ 1 := by
  decide

/-- C7 (amended): every Connect call starts at most one AutoTickle goroutine
(one exactly when its events hold the go statement), no other action starts
one, and so in every reachable state the number of running goroutines is at
most the number of Connect calls made; it is at most one as long as at most
one Connect call has been made. -/
theorem C7_heartbeats_bounded (s : System) (ops : List Op) (us : List Config) (g : Gateway) :
    (run s ops).tasks.length ≤ s.tasks.length + connects ops
      ∧ (connects ops ≤ 1 → (run initSystem ops).tasks.length ≤ 1)
      ∧ (step s (.connect us g)).tasks.length
          = s.tasks.length + spawns (Connect s.world us g).trace
      ∧ spawns (Connect s.world us g).trace ≤ 1
      ∧ (∀ op, (∀ us1 g1, op ≠ .connect us1 g1) →
          (step s op).tasks.length ≤ s.tasks.length) := by
  refine ⟨run_tasks ops s, ?_, (step_tasks s _).1 us g rfl, Connect_spawns _ _ _,
    fun op => (step_tasks s op).2⟩
  intro h
  have h1 := run_tasks ops initSystem
  have h2 : initSystem.tasks.length = 0 := rfl
  omega

/-- C8 (as stated, refuted): a status response with connected=false and
authenticated=true is stored as it is; Connect returns the not-connected error
together with a client that holds authenticated=true and connected=false. -/
theorem C8_authenticated_not_connected :
    (Connect initWorld [] gatewayOdd).err = some (.new "Not connected to gateway, please login to CP web gateway again")
      ∧ (Connect initWorld [] gatewayOdd).world.Client.IsAuthenticated = true
      ∧ (Connect initWorld [] gatewayOdd).world.Client.IsConnected = false
      ∧ ¬ Consistent (run initSystem [.connect [] gatewayOdd]).world.Client := by
  decide

/-- C8 (amended): the client at process start does not hold authenticated
without connected.  When every status response (to SessionStatus or to one of
the two status polls of Connect, whether or not the call returns an error)
that writes authenticated=true also writes connected=true, and every one that
writes connected=false also writes authenticated=false, no sequence of Connect,
SessionStatus, Tickle, Reauthenticate, Logout calls and heartbeat passes
reaches a state that holds authenticated without connected.  The condition on
a response is exactly what is needed: a response keeps every consistent client
consistent if and only if it meets the condition. -/
theorem C8_consistent_preserved (s : System) (ops : List Op)
    (h0 : Consistent s.world.Client) (hops : ∀ op ∈ ops, op.statusConsistent) :
    Consistent initSystem.world.Client
      ∧ Consistent (run s ops).world.Client
      ∧ (∀ a : StatusAnswer,
          (∀ c, Consistent c → Consistent (a.decode c)) ↔ a.keepsConsistent) :=
  ⟨by decide, run_consistent ops s h0 hops,
    fun a => ⟨keepsConsistent_of_preserves a, fun hP c hc => decode_consistent a c hP hc⟩⟩

/-! ## Instances on concrete gateways -/

/-- C1 at two gateways: one not connected at the first poll, one not connected
at the second poll. -/
theorem C1_not_connected_witness :
    ((Connect initWorld [] gatewayDown).err = some (.new "Not connected to gateway, please login to CP web gateway again")
        ∧ (Connect initWorld [] gatewayDown).trace
            = [.get "https://localhost:5000" "sessionValidateSSO",
                .get "https://localhost:5000" "sessionStatus"]
        ∧ spawns (Connect initWorld [] gatewayDown).trace = 0)
      ∧ ((Connect initWorld [] gatewayDrop).err = some (.new "Not connected to gateway, please login to CP web gateway again")
        ∧ (Connect initWorld [] gatewayDrop).trace
            = [.get "https://localhost:5000" "sessionValidateSSO",
                .get "https://localhost:5000" "sessionStatus",
                .post "https://localhost:5000" "sessionReauthenticate", .sleep 3,
                .get "https://localhost:5000" "sessionStatus"]
        ∧ spawns (Connect initWorld [] gatewayDrop).trace = 0) :=
  have h1 := C1_not_connected initWorld [] gatewayDown { Expires := 600 }
    { IsConnected := false, IsAuthenticated := false } {} {} "https://localhost:5000"
    rfl rfl rfl rfl (Or.inl rfl)
  have h2 := C1_not_connected initWorld [] gatewayDrop { Expires := 600 }
    { IsConnected := true, IsAuthenticated := false }
    { IsConnected := false, IsAuthenticated := false } {} "https://localhost:5000"
    rfl rfl rfl rfl (Or.inr ⟨rfl, rfl, rfl, rfl, rfl, rfl⟩)
  ⟨⟨h1.1, h1.2.1, h1.2.2.2.1⟩, ⟨h2.1, h2.2.1, h2.2.2.2.1⟩⟩

/-- C2 at the gateway that is authenticated at the second poll: nil error, one
re-authentication call, one 3 second sleep, two status polls. -/
theorem C2_single_reauth_witness :
    (Connect initWorld [] gatewayLate).err = none
      ∧ requests "sessionReauthenticate" (Connect initWorld [] gatewayLate).trace = 1
      ∧ (Connect initWorld [] gatewayLate).trace.count (.sleep 3) = 1
      ∧ requests "sessionStatus" (Connect initWorld [] gatewayLate).trace = 2 :=
  (C2_single_reauth initWorld [] gatewayLate { Expires := 600 }
    { IsConnected := true, IsAuthenticated := false } "https://localhost:5000"
    rfl rfl rfl rfl rfl rfl).2.2.2 {} { IsConnected := true, IsAuthenticated := true }
    rfl rfl rfl rfl rfl

/-- C3 at the gateway that never authenticates. -/
theorem C3_retry_exhausted_witness :
    (Connect initWorld [] gatewayStuck).err = none
      ∧ (Connect initWorld [] gatewayStuck).world.Client
          = { IsConnected := true, IsAuthenticated := false }
      ∧ spawns (Connect initWorld [] gatewayStuck).trace = 0
      ∧ (Connect initWorld [] gatewayStuck).trace
          = [.get "https://localhost:5000" "sessionValidateSSO",
              .get "https://localhost:5000" "sessionStatus",
              .post "https://localhost:5000" "sessionReauthenticate", .sleep 3,
              .get "https://localhost:5000" "sessionStatus",
              .post "https://localhost:5000" "sessionReauthenticate", .sleep 3] :=
  C3_retry_exhausted initWorld [] gatewayStuck { Expires := 600 }
    { IsConnected := true, IsAuthenticated := false }
    { IsConnected := true, IsAuthenticated := false } {} {} "https://localhost:5000"
    rfl rfl rfl rfl rfl rfl rfl rfl rfl rfl rfl rfl

/-- C4 at the authenticated gateway, with auto-heartbeat on (default settings)
and switched off by the supplied configuration. -/
theorem C4_heartbeat_started_witness :
    ((Connect initWorld [] gatewayUp).err = none
        ∧ spawns (Connect initWorld [] gatewayUp).trace = 1)
      ∧ ((Connect initWorld [{ CPURL := "", LogLevel := 2, AutoTickle := false }]
            gatewayLate).err = none
        ∧ spawns (Connect initWorld [{ CPURL := "", LogLevel := 2, AutoTickle := false }]
            gatewayLate).trace = 0) :=
  have h1 := C4_heartbeat_started initWorld [] gatewayUp { Expires := 600 }
    { IsConnected := true, IsAuthenticated := true } {} {} "https://localhost:5000"
    rfl rfl rfl rfl (Or.inl ⟨rfl, rfl⟩)
  have h2 := C4_heartbeat_started initWorld
    [{ CPURL := "", LogLevel := 2, AutoTickle := false }] gatewayLate { Expires := 600 }
    { IsConnected := true, IsAuthenticated := false }
    { IsConnected := true, IsAuthenticated := true } {} "https://localhost:5000"
    rfl rfl rfl rfl (Or.inr ⟨rfl, rfl, rfl, rfl, rfl, rfl, rfl⟩)
  ⟨⟨h1.1, h1.2.2.1⟩, ⟨h2.1, h2.2.2.1⟩⟩

/-- C5 at three good heartbeat answers followed by connected=false: the task
ends in the 4th pass with the session-disconnected error after exactly 4
heartbeat requests, and is still running after 3 passes. -/
theorem C5_heartbeat_stops_witness :
    AutoTickle (fun _ => Settings) tickleThree {} 4
        = some (.new "IB Session disconnected", heartbeatEvents (fun _ => Settings) 4)
      ∧ AutoTickle (fun _ => Settings) tickleThree {} 3 = none
      ∧ requests "sessionTickle" (heartbeatEvents (fun _ => Settings) 4) = 4
      ∧ (heartbeatEvents (fun _ => Settings) 4).count (.sleep 60) = 4 :=
  have h := C5_heartbeat_stops (fun _ => Settings) tickleThree {} 3
    (fun i hi =>
      ⟨{ Iserver := { AuthStatus := { Connected := true, Authenticated := true } } },
        by simp [tickleThree, hi], rfl, rfl⟩)
    (Or.inr ⟨_, rfl, Or.inl rfl⟩)
  ⟨(h.1 4 (le_refl _)).2 _ rfl, h.2.1 3 (le_refl _), h.2.2.1, h.2.2.2.1⟩

/-- C6 at a response with a non-zero expiry: no error. -/
theorem C6_tickle_expired_witness :
    (Tickle Settings {} (.ok { Expires := 600 })).err = none :=
  ((C6_tickle_expired Settings {}).1 { Expires := 600 }).2 (by decide)

/-- C7 (amended) at one Connect call followed by a heartbeat pass. -/
theorem C7_heartbeats_bounded_witness :
    (run initSystem [.connect [] gatewayUp, .heartbeat 0 (tickleThree 0)]).tasks.length ≤ 1 :=
  (C7_heartbeats_bounded initSystem [.connect [] gatewayUp, .heartbeat 0 (tickleThree 0)]
    [] gatewayUp).2.1 (by decide)

/-- C8 (amended) at a Connect call followed by a SessionStatus call whose
response carries only connected=true. -/
theorem C8_consistent_preserved_witness :
    Consistent (run initSystem
      [.connect [] gatewayUp,
        .sessionStatus { connected := some true }]).world.Client :=
  (C8_consistent_preserved initSystem
    [.connect [] gatewayUp, .sessionStatus { connected := some true }] (by decide)
    (by
      intro op hop
      simp only [List.mem_cons, List.mem_singleton, List.not_mem_nil, or_false] at hop
      rcases hop with rfl | rfl
      · intro i _
        show (StatusAnswer.full { IsConnected := true, IsAuthenticated := true }).keepsConsistent
        decide
      · show StatusAnswer.keepsConsistent { connected := some true }
        decide)).2.1

/-- C9 (amended) at a status request that fails before a body is read, and at
the one action that changes the client of the initial process. -/
theorem C9_state_frame_witness :
    (SessionStatus Settings { IsConnected := true } { err := some ⟨"timeout"⟩ }).res
        = { IsConnected := true }
      ∧ ((∃ a, Op.sessionStatus (.full { IsConnected := true }) = .sessionStatus a
            ∧ a.writes = true
            ∧ (step initSystem (.sessionStatus (.full { IsConnected := true }))).world.Client
                = a.decode initSystem.world.Client)
          ∨ (∃ us g j, Op.sessionStatus (.full { IsConnected := true }) = .connect us g ∧ j < 2
              ∧ (g.sessionStatus j).writes = true)) :=
  have h := C9_state_frame Settings { IsConnected := true }
  ⟨h.2.1 { err := some ⟨"timeout"⟩ } rfl,
    h.2.2.2.2.2.2.2.2 initSystem (.sessionStatus (.full { IsConnected := true })) (by decide)⟩

/-- C10 at settings with auto-heartbeat off and log level 0: a later Connect
with the default configuration values restores neither. -/
theorem C10_settings_merge_witness :
    (run { world := { Settings := { CPURL := "https://gw", LogLevel := 0, AutoTickle := false },
                      Client := {}, User := {} }, tasks := [] }
        [.connect [{ CPURL := "", LogLevel := 2, AutoTickle := true }]
          gatewayUp]).world.Settings.AutoTickle = false
      ∧ (run { world := { Settings := { CPURL := "https://gw", LogLevel := 0,
                                        AutoTickle := false },
                          Client := {}, User := {} }, tasks := [] }
          [.connect [{ CPURL := "", LogLevel := 2, AutoTickle := true }]
            gatewayUp]).world.Settings.LogLevel ≠ 2 :=
  have h := C10_settings_merge Settings { CPURL := "", LogLevel := 2, AutoTickle := true } []
    initWorld [] gatewayUp "https://gw"
    { world := { Settings := { CPURL := "https://gw", LogLevel := 0, AutoTickle := false },
                 Client := {}, User := {} }, tasks := [] }
    [.connect [{ CPURL := "", LogLevel := 2, AutoTickle := true }] gatewayUp]
  ⟨h.2.2.2.2.2.2.2.1 rfl, h.2.2.2.2.2.2.2.2 (by decide)⟩

end Goibcp
